import Mathlib

set_option maxHeartbeats 1000000
set_option maxRecDepth 4000

/- Shallow embedding of the supply-chain data pipeline of this repository:
   the cleaning script (class SupplyChainDataCleaner in
   clean_supply_chain_data.py) and the filter/aggregation script
   (class SupplyChainAggregator in aggregate_supply_chain_data.py).
   Machine floats of the source are modelled by exact rationals; pandas
   NaN/NaT cells are modelled by Option.none; Python exceptions are
   modelled by Option-valued results. -/

/-- Calendar timestamp at minute resolution, as carried by the dataset's
timestamp column (pandas Timestamp). -/
structure Ts where
  year : Int
  month : Int
  day : Int
  hour : Int
  minute : Int
deriving DecidableEq, Repr

/-- Monotone encoding of a timestamp used for chronological comparison: for
in-range month, day, hour and minute fields the order of this encoding is
exactly the calendar order that pandas Timestamp comparison implements. -/
def Ts.enc (t : Ts) : Int :=
  (((t.year * 12 + (t.month - 1)) * 31 + (t.day - 1)) * 24 + t.hour) * 60 + t.minute

/-- Chronological comparison of timestamps (pandas Timestamp order). -/
def Ts.leB (a b : Ts) : Bool := decide (a.enc ≤ b.enc)

/-- Strict chronological comparison of timestamps. -/
def Ts.ltB (a b : Ts) : Bool := decide (a.enc < b.enc)

/-- Raw CSV cell of a numeric column: a numeric literal, unparsable text, or
an empty cell.  pd.to_numeric with errors coerce maps the last two to NaN. -/
inductive RawCell where
  | num (q : ℚ)
  | junk
  | blank
deriving DecidableEq, Repr

/-- Raw CSV cell of the timestamp column.  pd.to_datetime with errors coerce
maps unparsable text and empty cells to NaT. -/
inductive RawTs where
  | time (t : Ts)
  | junk
  | blank
deriving DecidableEq, Repr

/-- Raw CSV cell of the categorical risk_classification column; the category
strings of the dataset are modelled by numeric codes. -/
inductive RawCat where
  | cat (c : Nat)
  | blank
deriving DecidableEq, Repr

/-- One raw CSV row of the supply-chain dataset, with exactly the columns the
cleaning script declares: the timestamp, the 21 numeric columns listed in
analyze_data_types, the 3 binary columns, and risk_classification. -/
structure RawRow where
  timestamp : RawTs
  vehicle_gps_latitude : RawCell
  vehicle_gps_longitude : RawCell
  fuel_consumption_rate : RawCell
  eta_variation_hours : RawCell
  traffic_congestion_level : RawCell
  warehouse_inventory_level : RawCell
  loading_unloading_time : RawCell
  weather_condition_severity : RawCell
  port_congestion_level : RawCell
  shipping_costs : RawCell
  supplier_reliability_score : RawCell
  lead_time_days : RawCell
  historical_demand : RawCell
  iot_temperature : RawCell
  route_risk_level : RawCell
  customs_clearance_time : RawCell
  driver_behavior_score : RawCell
  fatigue_monitoring_score : RawCell
  disruption_likelihood_score : RawCell
  delay_probability : RawCell
  delivery_time_deviation : RawCell
  handling_equipment_availability : RawCell
  order_fulfillment_status : RawCell
  cargo_condition_status : RawCell
  risk_classification : RawCat
deriving DecidableEq, Repr

/-- One typed dataframe row after analyze_data_types: numeric cells are
rational or NaN (none), the timestamp is a Timestamp or NaT (none). -/
structure Row where
  timestamp : Option Ts
  vehicle_gps_latitude : Option ℚ
  vehicle_gps_longitude : Option ℚ
  fuel_consumption_rate : Option ℚ
  eta_variation_hours : Option ℚ
  traffic_congestion_level : Option ℚ
  warehouse_inventory_level : Option ℚ
  loading_unloading_time : Option ℚ
  weather_condition_severity : Option ℚ
  port_congestion_level : Option ℚ
  shipping_costs : Option ℚ
  supplier_reliability_score : Option ℚ
  lead_time_days : Option ℚ
  historical_demand : Option ℚ
  iot_temperature : Option ℚ
  route_risk_level : Option ℚ
  customs_clearance_time : Option ℚ
  driver_behavior_score : Option ℚ
  fatigue_monitoring_score : Option ℚ
  disruption_likelihood_score : Option ℚ
  delay_probability : Option ℚ
  delivery_time_deviation : Option ℚ
  handling_equipment_availability : Option ℚ
  order_fulfillment_status : Option ℚ
  cargo_condition_status : Option ℚ
  risk_classification : Option Nat
deriving DecidableEq, Repr

/-- pd.to_numeric with errors coerce: numbers pass through, anything else
becomes NaN.  It never raises. -/
def to_numeric : RawCell → Option ℚ
  | RawCell.num q => some q
  | RawCell.junk => none
  | RawCell.blank => none

/-- pd.to_datetime with errors coerce: unparsable cells become NaT. -/
def to_datetime : RawTs → Option Ts
  | RawTs.time t => some t
  | RawTs.junk => none
  | RawTs.blank => none

/-- Categorical cells: an empty cell is a missing value. -/
def to_cat : RawCat → Option Nat
  | RawCat.cat c => some c
  | RawCat.blank => none

/-- Typed conversion of one row, as performed by analyze_data_types on every
declared numeric, binary and timestamp column. -/
def analyze_row (rr : RawRow) : Row where
  timestamp := to_datetime rr.timestamp
  vehicle_gps_latitude := to_numeric rr.vehicle_gps_latitude
  vehicle_gps_longitude := to_numeric rr.vehicle_gps_longitude
  fuel_consumption_rate := to_numeric rr.fuel_consumption_rate
  eta_variation_hours := to_numeric rr.eta_variation_hours
  traffic_congestion_level := to_numeric rr.traffic_congestion_level
  warehouse_inventory_level := to_numeric rr.warehouse_inventory_level
  loading_unloading_time := to_numeric rr.loading_unloading_time
  weather_condition_severity := to_numeric rr.weather_condition_severity
  port_congestion_level := to_numeric rr.port_congestion_level
  shipping_costs := to_numeric rr.shipping_costs
  supplier_reliability_score := to_numeric rr.supplier_reliability_score
  lead_time_days := to_numeric rr.lead_time_days
  historical_demand := to_numeric rr.historical_demand
  iot_temperature := to_numeric rr.iot_temperature
  route_risk_level := to_numeric rr.route_risk_level
  customs_clearance_time := to_numeric rr.customs_clearance_time
  driver_behavior_score := to_numeric rr.driver_behavior_score
  fatigue_monitoring_score := to_numeric rr.fatigue_monitoring_score
  disruption_likelihood_score := to_numeric rr.disruption_likelihood_score
  delay_probability := to_numeric rr.delay_probability
  delivery_time_deviation := to_numeric rr.delivery_time_deviation
  handling_equipment_availability := to_numeric rr.handling_equipment_availability
  order_fulfillment_status := to_numeric rr.order_fulfillment_status
  cargo_condition_status := to_numeric rr.cargo_condition_status
  risk_classification := to_cat rr.risk_classification

/-- analyze_data_types: type conversion of the whole dataframe.  It is a
total function, mirroring that the coercions in the source never raise. -/
def analyze_data_types (raws : List RawRow) : List Row := raws.map analyze_row

/-- Critical-field test of handle_missing_values: a row is kept only when its
timestamp parsed and both GPS coordinates are present. -/
def keep_critical (r : Row) : Bool :=
  r.timestamp.isSome && r.vehicle_gps_latitude.isSome && r.vehicle_gps_longitude.isSome

/-- Ordered insertion, the inner step of the sort used to model the pandas
sorting primitives. -/
def insert_sorted {α : Type} (le : α → α → Bool) (a : α) : List α → List α
  | [] => [a]
  | b :: t => if le a b then a :: b :: t else b :: insert_sorted le a t

/-- Sorting by a boolean comparison.  pandas sort primitives are modelled by
this insertion sort: only the ordering of the result matters, not the
sorting algorithm. -/
def sort_by {α : Type} (le : α → α → Bool) : List α → List α
  | [] => []
  | a :: t => insert_sorted le a (sort_by le t)

/-- Ordered insertion adds exactly one element. -/
theorem length_insert_sorted {α : Type} (le : α → α → Bool) (a : α) (l : List α) :
    (insert_sorted le a l).length = l.length + 1 := by
  induction l with
  | nil => rfl
  | cons b t ih =>
    unfold insert_sorted
    split
    · simp
    · simp [ih]

/-- Sorting never adds or removes an element. -/
theorem length_sort_by {α : Type} (le : α → α → Bool) (l : List α) :
    (sort_by le l).length = l.length := by
  induction l with
  | nil => rfl
  | cons a t ih =>
    unfold sort_by
    rw [length_insert_sorted, ih, List.length_cons]

/-- pandas Series.median with skipna: sort the present values; the middle
value for odd length, the average of the two middle values for even length;
NaN (none) when no value is present. -/
def series_median (xs : List ℚ) : Option ℚ :=
  let s := sort_by (fun a b => decide (a ≤ b)) xs
  let n := s.length
  if n = 0 then none
  else if n % 2 = 1 then some (s.getD (n / 2) 0)
  else some ((s.getD (n / 2 - 1) 0 + s.getD (n / 2) 0) / 2)

/-- Median imputation of one numeric column, as in the fillna loop of
handle_missing_values: when the column has missing values, fill them with
the median of the present values.  When every value of the column is
missing the median is NaN and fillna leaves the column unchanged. -/
def fill_column (get : Row → Option ℚ) (set : Row → ℚ → Row) (rows : List Row) :
    List Row :=
  if rows.any (fun r => (get r).isNone) then
    match series_median (rows.filterMap get) with
    | some m => rows.map (fun r => if (get r).isNone then set r m else r)
    | none => rows
  else rows

/-- Median imputation over every numeric dataframe column (the converted
numeric and binary columns; the datetime and object columns are not numeric
dtypes and are skipped by select_dtypes). -/
def impute_numeric (rows : List Row) : List Row :=
  let r01 := fill_column (fun r => r.vehicle_gps_latitude)
    (fun r v => { r with vehicle_gps_latitude := some v }) rows
  let r02 := fill_column (fun r => r.vehicle_gps_longitude)
    (fun r v => { r with vehicle_gps_longitude := some v }) r01
  let r03 := fill_column (fun r => r.fuel_consumption_rate)
    (fun r v => { r with fuel_consumption_rate := some v }) r02
  let r04 := fill_column (fun r => r.eta_variation_hours)
    (fun r v => { r with eta_variation_hours := some v }) r03
  let r05 := fill_column (fun r => r.traffic_congestion_level)
    (fun r v => { r with traffic_congestion_level := some v }) r04
  let r06 := fill_column (fun r => r.warehouse_inventory_level)
    (fun r v => { r with warehouse_inventory_level := some v }) r05
  let r07 := fill_column (fun r => r.loading_unloading_time)
    (fun r v => { r with loading_unloading_time := some v }) r06
  let r08 := fill_column (fun r => r.weather_condition_severity)
    (fun r v => { r with weather_condition_severity := some v }) r07
  let r09 := fill_column (fun r => r.port_congestion_level)
    (fun r v => { r with port_congestion_level := some v }) r08
  let r10 := fill_column (fun r => r.shipping_costs)
    (fun r v => { r with shipping_costs := some v }) r09
  let r11 := fill_column (fun r => r.supplier_reliability_score)
    (fun r v => { r with supplier_reliability_score := some v }) r10
  let r12 := fill_column (fun r => r.lead_time_days)
    (fun r v => { r with lead_time_days := some v }) r11
  let r13 := fill_column (fun r => r.historical_demand)
    (fun r v => { r with historical_demand := some v }) r12
  let r14 := fill_column (fun r => r.iot_temperature)
    (fun r v => { r with iot_temperature := some v }) r13
  let r15 := fill_column (fun r => r.route_risk_level)
    (fun r v => { r with route_risk_level := some v }) r14
  let r16 := fill_column (fun r => r.customs_clearance_time)
    (fun r v => { r with customs_clearance_time := some v }) r15
  let r17 := fill_column (fun r => r.driver_behavior_score)
    (fun r v => { r with driver_behavior_score := some v }) r16
  let r18 := fill_column (fun r => r.fatigue_monitoring_score)
    (fun r v => { r with fatigue_monitoring_score := some v }) r17
  let r19 := fill_column (fun r => r.disruption_likelihood_score)
    (fun r v => { r with disruption_likelihood_score := some v }) r18
  let r20 := fill_column (fun r => r.delay_probability)
    (fun r v => { r with delay_probability := some v }) r19
  let r21 := fill_column (fun r => r.delivery_time_deviation)
    (fun r v => { r with delivery_time_deviation := some v }) r20
  let r22 := fill_column (fun r => r.handling_equipment_availability)
    (fun r v => { r with handling_equipment_availability := some v }) r21
  let r23 := fill_column (fun r => r.order_fulfillment_status)
    (fun r v => { r with order_fulfillment_status := some v }) r22
  fill_column (fun r => r.cargo_condition_status)
    (fun r v => { r with cargo_condition_status := some v }) r23

/-- pandas Series.mode()[0] on the category codes: the smallest value among
those of maximal multiplicity (mode returns candidates in sorted order), or
none for an all-missing column. -/
def mode_cat (xs : List Nat) : Option Nat :=
  xs.dedup.foldl (fun acc c =>
    match acc with
    | none => some c
    | some b =>
        if xs.count c > xs.count b ∨ (xs.count c = xs.count b ∧ c < b) then some c
        else some b) none

/-- Code standing for the fill value Unknown used when the categorical
column is entirely missing. -/
def unknown_cat : Nat := 1000000

/-- Mode imputation of the risk_classification column. -/
def impute_categorical (rows : List Row) : List Row :=
  if rows.any (fun r => r.risk_classification.isNone) then
    let m := (mode_cat (rows.filterMap (fun r => r.risk_classification))).getD unknown_cat
    rows.map (fun r =>
      if r.risk_classification.isNone then { r with risk_classification := some m } else r)
  else rows

/-- handle_missing_values: drop the rows with a missing timestamp, then the
rows missing either GPS coordinate, then impute numeric columns with the
median and the categorical column with the mode. -/
def handle_missing_values (rows : List Row) : List Row :=
  impute_categorical (impute_numeric (rows.filter keep_critical))

/-- Pass of drop_duplicates keep first: a row is kept exactly when no equal
row has been seen before it. -/
def dedup_seen (seen : List Row) : List Row → List Row
  | [] => []
  | r :: rest => if r ∈ seen then dedup_seen seen rest else r :: dedup_seen (r :: seen) rest

/-- remove_duplicates: df.drop_duplicates with the default keep first, where
rows are compared on all fields (pandas treats equal positions of NaN as
equal for this purpose, as does equality on Option). -/
def remove_duplicates (rows : List Row) : List Row := dedup_seen [] rows

/-- Lower clamp of one cell: df.loc of the mask column less than m assigns m;
NaN compares false and is untouched. -/
def clamp_min_cell (m : ℚ) : Option ℚ → Option ℚ
  | some q => if q < m then some m else some q
  | none => none

/-- Upper clamp of one cell: values above M are set to M; NaN untouched. -/
def clamp_max_cell (M : ℚ) : Option ℚ → Option ℚ
  | some q => if M < q then some M else some q
  | none => none

/-- Lower then upper clamp, the per-cell effect of one iteration of the
validate_ranges loop for a column with both bounds. -/
def clamp_both_cell (m M : ℚ) (c : Option ℚ) : Option ℚ :=
  clamp_max_cell M (clamp_min_cell m c)

/-- Comparison of a possibly-missing cell with a lower bound; NaN compares
false, as in pandas. -/
def cell_ltB (c : Option ℚ) (m : ℚ) : Bool :=
  match c with
  | some q => decide (q < m)
  | none => false

/-- Comparison of a possibly-missing cell with an upper bound; NaN compares
false. -/
def cell_gtB (c : Option ℚ) (M : ℚ) : Bool :=
  match c with
  | some q => decide (M < q)
  | none => false

/-- Corrections one cell contributes under a column with both bounds: the
source counts the values below the minimum, assigns the minimum, and then
counts the values above the maximum in the updated column. -/
def corr_both (m M : ℚ) (c : Option ℚ) : Nat :=
  (if cell_ltB c m then 1 else 0) + (if cell_gtB (clamp_min_cell m c) M then 1 else 0)

/-- Corrections one cell contributes under a column with only a minimum. -/
def corr_min (m : ℚ) (c : Option ℚ) : Nat := if cell_ltB c m then 1 else 0

/-- Per-row effect of the validate_ranges loop.  The loop walks the
range_validations dict mutating one column at a time; since each iteration
reads and writes only its own column, the combined effect on a row is this
simultaneous per-field clamp with the bounds of the source dict. -/
def clamp_row (r : Row) : Row :=
  { r with
    vehicle_gps_latitude := clamp_both_cell (-90) 90 r.vehicle_gps_latitude
    vehicle_gps_longitude := clamp_both_cell (-180) 180 r.vehicle_gps_longitude
    fuel_consumption_rate := clamp_min_cell 0 r.fuel_consumption_rate
    traffic_congestion_level := clamp_both_cell 0 10 r.traffic_congestion_level
    weather_condition_severity := clamp_both_cell 0 1 r.weather_condition_severity
    port_congestion_level := clamp_both_cell 0 10 r.port_congestion_level
    route_risk_level := clamp_both_cell 0 10 r.route_risk_level
    shipping_costs := clamp_min_cell 0 r.shipping_costs
    supplier_reliability_score := clamp_both_cell 0 1 r.supplier_reliability_score
    lead_time_days := clamp_min_cell 0 r.lead_time_days
    historical_demand := clamp_min_cell 0 r.historical_demand
    driver_behavior_score := clamp_both_cell 0 1 r.driver_behavior_score
    fatigue_monitoring_score := clamp_both_cell 0 1 r.fatigue_monitoring_score
    handling_equipment_availability := clamp_both_cell 0 1 r.handling_equipment_availability
    order_fulfillment_status := clamp_both_cell 0 1 r.order_fulfillment_status
    cargo_condition_status := clamp_both_cell 0 1 r.cargo_condition_status
    loading_unloading_time := clamp_min_cell 0 r.loading_unloading_time
    warehouse_inventory_level := clamp_min_cell 0 r.warehouse_inventory_level
    disruption_likelihood_score := clamp_both_cell 0 1 r.disruption_likelihood_score
    delay_probability := clamp_both_cell 0 1 r.delay_probability
    customs_clearance_time := clamp_min_cell 0 r.customs_clearance_time }

/-- Number of corrected values a row contributes to total_corrections of
validate_ranges; each column is counted with the bounds of the source dict,
and the count of a column is unaffected by the clamps of the other columns. -/
def range_corrections_row (r : Row) : Nat :=
  corr_both (-90) 90 r.vehicle_gps_latitude +
  corr_both (-180) 180 r.vehicle_gps_longitude +
  corr_min 0 r.fuel_consumption_rate +
  corr_both 0 10 r.traffic_congestion_level +
  corr_both 0 1 r.weather_condition_severity +
  corr_both 0 10 r.port_congestion_level +
  corr_both 0 10 r.route_risk_level +
  corr_min 0 r.shipping_costs +
  corr_both 0 1 r.supplier_reliability_score +
  corr_min 0 r.lead_time_days +
  corr_min 0 r.historical_demand +
  corr_both 0 1 r.driver_behavior_score +
  corr_both 0 1 r.fatigue_monitoring_score +
  corr_both 0 1 r.handling_equipment_availability +
  corr_both 0 1 r.order_fulfillment_status +
  corr_both 0 1 r.cargo_condition_status +
  corr_min 0 r.loading_unloading_time +
  corr_min 0 r.warehouse_inventory_level +
  corr_both 0 1 r.disruption_likelihood_score +
  corr_both 0 1 r.delay_probability +
  corr_min 0 r.customs_clearance_time

/-- validate_ranges: clamp every range-validated column into its declared
bounds and report the number of corrected values. -/
def validate_ranges (rows : List Row) : List Row × Nat :=
  (rows.map clamp_row, (rows.map range_corrections_row).sum)

/-- Test of the validate_binary_fields mask, the column not equal 0 and not
equal 1: under pandas semantics NaN is unequal to both, so a missing cell
also counts as non-binary. -/
def non_binaryB (c : Option ℚ) : Bool :=
  match c with
  | some q => !(decide (q = 0) || decide (q = 1))
  | none => true

/-- Round half to even, the rounding of Series.round (numpy rounding). -/
def round_half_even (q : ℚ) : Int :=
  let f := ⌊q⌋
  let r := q - (f : ℚ)
  if r < 1 / 2 then f
  else if 1 / 2 < r then f + 1
  else if f % 2 = 0 then f else f + 1

/-- Per-cell effect of Series.round().clip(0, 1); NaN stays NaN. -/
def round_clip_cell : Option ℚ → Option ℚ
  | some q => some ((min 1 (max 0 (round_half_even q)) : Int) : ℚ)
  | none => none

/-- One column pass of validate_binary_fields: when the column holds any
non-binary value it is rounded and clipped into the unit step. -/
def bin_column (get : Row → Option ℚ) (set : Row → Option ℚ → Row) (rows : List Row) :
    List Row :=
  if rows.any (fun r => non_binaryB (get r)) then
    rows.map (fun r => set r (round_clip_cell (get r)))
  else rows

/-- validate_binary_fields over the three binary columns, in source order. -/
def validate_binary_fields (rows : List Row) : List Row :=
  let r1 := bin_column (fun r => r.handling_equipment_availability)
    (fun r v => { r with handling_equipment_availability := v }) rows
  let r2 := bin_column (fun r => r.order_fulfillment_status)
    (fun r v => { r with order_fulfillment_status := v }) r1
  bin_column (fun r => r.cargo_condition_status)
    (fun r v => { r with cargo_condition_status := v }) r2

/-- Ordering used by sort_values on the timestamp column: chronological with
missing timestamps placed last (na_position last). -/
def ts_key_leB (a b : Row) : Bool :=
  match a.timestamp, b.timestamp with
  | some x, some y => Ts.leB x y
  | some _, none => true
  | none, some _ => false
  | none, none => true

/-- validate_temporal: the dataframe is sorted by timestamp ascending and the
index reset; the printed range summary has no effect on the data. -/
def validate_temporal (rows : List Row) : List Row := sort_by ts_key_leB rows

/-- Cleaned row together with the four data-quality flag columns added by
create_data_quality_flags (astype int of a boolean mask, never missing). -/
structure FlaggedRow where
  base : Row
  flag_high_fuel_consumption : Int
  flag_extreme_temperature : Int
  flag_high_risk_route : Int
  flag_low_supplier_reliability : Int
deriving DecidableEq, Repr

/-- astype int of a boolean. -/
def bool_to_int (b : Bool) : Int := if b then 1 else 0

/-- Flag columns of one row, with the thresholds of the source. -/
def create_flags (r : Row) : FlaggedRow where
  base := r
  flag_high_fuel_consumption := bool_to_int (cell_gtB r.fuel_consumption_rate 15)
  flag_extreme_temperature :=
    bool_to_int (cell_ltB r.iot_temperature (-10) || cell_gtB r.iot_temperature 40)
  flag_high_risk_route := bool_to_int (cell_gtB r.route_risk_level 8)
  flag_low_supplier_reliability := bool_to_int (cell_ltB r.supplier_reliability_score (3 / 10))

/-- create_data_quality_flags over the dataframe. -/
def create_data_quality_flags (rows : List Row) : List FlaggedRow := rows.map create_flags

/-- Number of dataframe columns at scoring time: the 26 loaded columns plus
the 4 flag columns. -/
def num_columns : Nat := 30

/-- Null indicator of one cell, as counted by df.isnull. -/
def null_ind {α : Type} (c : Option α) : Nat := if c.isSome then 0 else 1

/-- Nulls of one row across all dataframe columns; the four flag columns are
integer valued and never null. -/
def null_count_row (r : Row) : Nat :=
  null_ind r.timestamp +
  null_ind r.vehicle_gps_latitude +
  null_ind r.vehicle_gps_longitude +
  null_ind r.fuel_consumption_rate +
  null_ind r.eta_variation_hours +
  null_ind r.traffic_congestion_level +
  null_ind r.warehouse_inventory_level +
  null_ind r.loading_unloading_time +
  null_ind r.weather_condition_severity +
  null_ind r.port_congestion_level +
  null_ind r.shipping_costs +
  null_ind r.supplier_reliability_score +
  null_ind r.lead_time_days +
  null_ind r.historical_demand +
  null_ind r.iot_temperature +
  null_ind r.route_risk_level +
  null_ind r.customs_clearance_time +
  null_ind r.driver_behavior_score +
  null_ind r.fatigue_monitoring_score +
  null_ind r.disruption_likelihood_score +
  null_ind r.delay_probability +
  null_ind r.delivery_time_deviation +
  null_ind r.handling_equipment_availability +
  null_ind r.order_fulfillment_status +
  null_ind r.cargo_condition_status +
  null_ind r.risk_classification

/-- pandas Series.quantile with linear interpolation over the present values
of a column; NaN (none) for an empty or all-missing column. -/
def series_quantile (xs : List ℚ) (p : ℚ) : Option ℚ :=
  let s := sort_by (fun a b => decide (a ≤ b)) xs
  match s with
  | [] => none
  | _ =>
    let n := s.length
    let h := p * ((n : ℚ) - 1)
    let lo := (⌊h⌋).toNat
    let frac := h - (⌊h⌋ : ℚ)
    let a := s.getD lo 0
    let b := s.getD (min (lo + 1) (n - 1)) 0
    some (a + frac * (b - a))

/-- IQR outliers of one column with fence factor 3: values outside of
Q1 - 3 IQR and Q3 + 3 IQR; NaN cells compare false and are never flagged,
and an all-missing column has NaN quantiles and flags nothing. -/
def outlier_count_col (cells : List (Option ℚ)) : Nat :=
  match series_quantile (cells.filterMap id) (1 / 4),
        series_quantile (cells.filterMap id) (3 / 4) with
  | some q1, some q3 =>
      let iqr := q3 - q1
      cells.countP (fun c => cell_ltB c (q1 - 3 * iqr) || cell_gtB c (q3 + 3 * iqr))
  | _, _ => 0

/-- Outliers summed over the six checked metrics of the source. -/
def total_outliers (rows : List Row) : Nat :=
  outlier_count_col (rows.map (fun r => r.fuel_consumption_rate)) +
  outlier_count_col (rows.map (fun r => r.shipping_costs)) +
  outlier_count_col (rows.map (fun r => r.warehouse_inventory_level)) +
  outlier_count_col (rows.map (fun r => r.historical_demand)) +
  outlier_count_col (rows.map (fun r => r.iot_temperature)) +
  outlier_count_col (rows.map (fun r => r.loading_unloading_time))

/-- Equality test of a possibly-missing cell against a constant; NaN compares
false under pandas. -/
def cell_eqB (c : Option ℚ) (v : ℚ) : Bool :=
  match c with
  | some q => decide (q = v)
  | none => false

/-- Cross-field contradictions counted by the consistency heuristic:
fulfillment flag equal 1 while delay probability is above 0.8. -/
def consistency_issues (rows : List Row) : Nat :=
  rows.countP (fun r => cell_eqB r.order_fulfillment_status 1 && cell_gtB r.delay_probability (4 / 5))

/-- The five quality percentages and the composite score of
calculate_data_quality_score. -/
structure QualityReport where
  completeness : ℚ
  uniqueness : ℚ
  validity : ℚ
  consistency : ℚ
  outlier_pct : ℚ
  score : ℚ
deriving DecidableEq, Repr

/-- calculate_data_quality_score.  With no rows the completeness ratio is a
numpy 0 over 0 giving NaN and the validity ratio is a Python int 0 over 0
raising ZeroDivisionError; with no original rows the uniqueness ratio
raises; both failure modes are modelled by none, since no well-formed
report is produced. -/
def calculate_data_quality_score (frows : List FlaggedRow) (duplicates_removed : Nat)
    (original_rows : Nat) (total_corrections : Nat) : Option QualityReport :=
  let rows := frows.map FlaggedRow.base
  let n := frows.length
  if n = 0 ∨ original_rows = 0 then none
  else
    let total_cells : ℚ := (n : ℚ) * (num_columns : ℚ)
    let completeness := (1 - ((rows.map null_count_row).sum : ℚ) / total_cells) * 100
    let uniqueness := (1 - (duplicates_removed : ℚ) / (original_rows : ℚ)) * 100
    let validity := (1 - (total_corrections : ℚ) / total_cells) * 100
    let consistency := (1 - (consistency_issues rows : ℚ) / (n : ℚ)) * 100
    let outlier_pct := ((total_outliers rows : ℚ) / ((n : ℚ) * 6)) * 100
    some
      { completeness := completeness
        uniqueness := uniqueness
        validity := validity
        consistency := consistency
        outlier_pct := outlier_pct
        score := completeness * 0.25 + uniqueness * 0.2 + validity * 0.25 +
          consistency * 0.2 + (100 - outlier_pct) * 0.1 }

/-- Dataframe after the missing-value stage of the pipeline. -/
def handled_rows (raws : List RawRow) : List Row :=
  handle_missing_values (analyze_data_types raws)

/-- Dataframe after duplicate removal. -/
def deduped_rows (raws : List RawRow) : List Row := remove_duplicates (handled_rows raws)

/-- duplicates_removed of the cleaning report. -/
def duplicates_removed_count (raws : List RawRow) : Nat :=
  (handled_rows raws).length - (deduped_rows raws).length

/-- Range validation applied at its position in the pipeline. -/
def range_validated (raws : List RawRow) : List Row × Nat :=
  validate_ranges (deduped_rows raws)

/-- The dataset written by save_cleaned_data: typed, critical rows dropped,
imputed, deduplicated, clamped, binary corrected, sorted by timestamp, with
the flag columns appended. -/
def cleaned_rows (raws : List RawRow) : List FlaggedRow :=
  create_data_quality_flags (validate_temporal (validate_binary_fields (range_validated raws).1))

/-- Quality report of the full run of run_complete_cleaning_pipeline; none
when the scoring stage fails (which aborts the run before saving). -/
def clean_report (raws : List RawRow) : Option QualityReport :=
  calculate_data_quality_score (cleaned_rows raws) (duplicates_removed_count raws)
    raws.length (range_validated raws).2

/-- Complete cleaning pipeline: the saved dataset together with the quality
report, or none when the run aborts. -/
def clean_pipeline (raws : List RawRow) : Option (List FlaggedRow × QualityReport) :=
  match clean_report raws with
  | some rep => some (cleaned_rows raws, rep)
  | none => none

/-- One record of the cleaned CSV as consumed by the aggregation script.
load_data parses every timestamp (pd.to_datetime without coercion), so a
record carries a parsed timestamp; of the metric columns the model keeps
the count proxy column vehicle_gps_latitude and two representative reducer
inputs (the remaining reducer columns play no role in the verified
properties, and the std reducers are irrational and outside this
field of rationals). -/
structure AggRec where
  ts : Ts
  vehicle_gps_latitude : Option ℚ
  fuel_consumption_rate : Option ℚ
  shipping_costs : Option ℚ
deriving DecidableEq, Repr

/-- Declared start of the temporal range, Timestamp 2021-01-01. -/
def declared_start : Ts := ⟨2021, 1, 1, 0, 0⟩

/-- Declared end of the temporal range, Timestamp 2024-01-31. -/
def declared_end : Ts := ⟨2024, 1, 31, 0, 0⟩

/-- Mask of records inside the declared range, inclusive on both ends. -/
def in_declared_rangeB (r : AggRec) : Bool :=
  Ts.leB declared_start r.ts && Ts.leB r.ts declared_end

/-- Mask of records after the declared end. -/
def beyond_declaredB (r : AggRec) : Bool := Ts.ltB declared_end r.ts

/-- Mask of records before the declared start. -/
def before_declaredB (r : AggRec) : Bool := Ts.ltB r.ts declared_start

/-- Maximum timestamp of the dataset (df timestamp max); none when empty. -/
def max_timestamp (recs : List AggRec) : Option Ts :=
  recs.foldl (fun acc r =>
    match acc with
    | none => some r.ts
    | some m => if Ts.leB m r.ts then some r.ts else some m) none

/-- Findings of analyze_temporal_discrepancy: counts of records within and
beyond the declared range, and the month delta computed from the year and
month fields of the declared end and the actual maximum timestamp when
records extend beyond the declared end. -/
structure TemporalReport where
  within_count : Nat
  beyond_count : Nat
  months_beyond : Option Int
deriving DecidableEq, Repr

/-- analyze_temporal_discrepancy of the aggregation script. -/
def analyze_temporal_discrepancy (recs : List AggRec) : TemporalReport :=
  let beyond := recs.countP beyond_declaredB
  { within_count := recs.countP in_declared_rangeB
    beyond_count := beyond
    months_beyond :=
      match max_timestamp recs with
      | some actual_end =>
          if 0 < beyond then
            some ((actual_end.year - declared_end.year) * 12 +
              (actual_end.month - declared_end.month))
          else none
      | none => none }

/-- filter_to_declared_range: keep exactly the records with timestamp between
the declared start and end, inclusive. -/
def filter_to_declared_range (recs : List AggRec) : List AggRec :=
  recs.filter in_declared_rangeB

/-- Day count since 1970-01-01 of a civil date, the standard days-from-civil
computation; each division has a nonnegative dividend on calendar input. -/
def days_from_civil (y m d : Int) : Int :=
  let y2 := if m ≤ 2 then y - 1 else y
  let era := (if 0 ≤ y2 then y2 else y2 - 399) / 400
  let yoe := y2 - era * 400
  let mp := (m + 9) % 12
  let doy := (153 * mp + 2) / 5 + d - 1
  let doe := yoe * 365 + yoe / 4 - yoe / 100 + doy
  era * 146097 + doe - 719468

/-- Bucket key of resample by calendar day: the day of the timestamp. -/
def day_key (t : Ts) : Int := days_from_civil t.year t.month t.day

/-- Bucket key of resample W-MON: records are binned into weeks ending on
Monday and labelled by that Monday, the smallest Monday at or after the
day of the record (1970-01-05, day number 4, was a Monday). -/
def week_key (t : Ts) : Int :=
  let dn := day_key t
  dn + Int.emod (4 - dn) 7

/-- One output bucket of an aggregation.  In the daily output the key column
is named date and the count column daily_record_count (the count reducer on
vehicle_gps_latitude); the weekly output names them week_start and
weekly_record_count. -/
structure Bucket where
  key : Int
  record_count : Nat
  fuel_consumption_rate_mean : Option ℚ
  shipping_costs_mean : Option ℚ
  shipping_costs_sum : ℚ
deriving DecidableEq, Repr

/-- Mean reducer over a column of bucket records: mean of the present
values, NaN for an empty or all-missing column. -/
def col_mean (xs : List (Option ℚ)) : Option ℚ :=
  let p := xs.filterMap id
  if p.length = 0 then none else some (p.sum / (p.length : ℚ))

/-- Sum reducer; pandas sum with skipna is 0 for an empty column. -/
def col_sum (xs : List (Option ℚ)) : ℚ := (xs.filterMap id).sum

/-- Bucket of a given key: its records are the ones whose timestamp falls in
the bucket, its count is the count reducer on vehicle_gps_latitude (the
number of non-null values), and mean and sum reducers are applied per
metric column. -/
def mk_bucket (key : AggRec → Int) (recs : List AggRec) (k : Int) : Bucket :=
  let brecs := recs.filter (fun r => decide (key r = k))
  { key := k
    record_count := brecs.countP (fun r => r.vehicle_gps_latitude.isSome)
    fuel_consumption_rate_mean := col_mean (brecs.map (fun r => r.fuel_consumption_rate))
    shipping_costs_mean := col_mean (brecs.map (fun r => r.shipping_costs))
    shipping_costs_sum := col_sum (brecs.map (fun r => r.shipping_costs)) }

/-- Ascending enumeration of bucket keys from lo to hi. -/
def key_range (lo hi : Int) : List Int :=
  (List.range (hi - lo + 1).toNat).map (fun i : Nat => lo + (i : Int))

/-- Shared shape of aggregate_daily and aggregate_weekly: resample emits one
bucket per key from the smallest to the largest key present, ascending, and
the rows whose record count is zero are then removed. -/
def aggregate_by (key : AggRec → Int) (recs : List AggRec) : List Bucket :=
  match recs.map (fun r => key r) with
  | [] => []
  | k :: ks =>
      let lo := ks.foldl min k
      let hi := ks.foldl max k
      ((key_range lo hi).map (mk_bucket key recs)).filter (fun b => 0 < b.record_count)

/-- aggregate_daily of the aggregation script. -/
def aggregate_daily (recs : List AggRec) : List Bucket :=
  aggregate_by (fun r => day_key r.ts) recs

/-- aggregate_weekly of the aggregation script. -/
def aggregate_weekly (recs : List AggRec) : List Bucket :=
  aggregate_by (fun r => week_key r.ts) recs

/-- C5: the Temporal Filter's output holds exactly the input records whose
timestamp t satisfies start ≤ t ≤ end, both ends inclusive, and the filter
is idempotent: filtering its own output again removes nothing. -/
theorem c5_filter_exact_and_idempotent (recs : List AggRec) :
    (∀ r : AggRec, r ∈ filter_to_declared_range recs ↔
      r ∈ recs ∧ Ts.leB declared_start r.ts = true ∧ Ts.leB r.ts declared_end = true) ∧
    filter_to_declared_range (filter_to_declared_range recs) = filter_to_declared_range recs := by
  constructor
  · intro r
    simp [filter_to_declared_range, List.mem_filter, in_declared_rangeB, Bool.and_eq_true]
  · simp only [filter_to_declared_range, List.filter_filter]
    exact List.filter_congr (fun r _ => by simp [Bool.and_self])

/-- Every record falls in exactly one of the three temporal classes: within
the declared range, beyond the declared end, before the declared start. -/
theorem temporal_class_trichotomy (r : AggRec) :
    (if in_declared_rangeB r then (1 : Nat) else 0) +
      (if beyond_declaredB r then 1 else 0) +
      (if before_declaredB r then 1 else 0) = 1 := by
  have hsd : declared_start.enc ≤ declared_end.enc := by decide
  simp only [in_declared_rangeB, beyond_declaredB, before_declaredB, Ts.leB, Ts.ltB,
    Bool.and_eq_true, decide_eq_true_eq]
  split_ifs <;> omega

/-- C6: the counts of records within the declared range, after the declared
end and before the declared start sum to the original row count. -/
theorem c6_temporal_counts_partition (recs : List AggRec) :
    recs.countP in_declared_rangeB + recs.countP beyond_declaredB +
      recs.countP before_declaredB = recs.length := by
  induction recs with
  | nil => simp
  | cons r t ih =>
    simp only [List.countP_cons, List.length_cons]
    have := temporal_class_trichotomy r
    omega

/-- The running maximum of the timestamp fold is either the start value or a
timestamp of some record of the list. -/
theorem max_fold_mem (l : List AggRec) (acc : Option Ts) (t : Ts)
    (h : l.foldl (fun acc r =>
      match acc with
      | none => some r.ts
      | some m => if Ts.leB m r.ts then some r.ts else some m) acc = some t) :
    acc = some t ∨ ∃ r ∈ l, r.ts = t := by
  induction l generalizing acc with
  | nil => exact Or.inl h
  | cons r rest ih =>
    rcases ih _ h with hacc | ⟨r', hr', ht⟩
    · cases acc with
      | none =>
        simp only at hacc
        exact Or.inr ⟨r, List.mem_cons_self r rest, by injection hacc⟩
      | some m =>
        simp only at hacc
        by_cases hle : Ts.leB m r.ts
        · rw [if_pos hle] at hacc
          exact Or.inr ⟨r, List.mem_cons_self r rest, by injection hacc⟩
        · rw [if_neg hle] at hacc
          exact Or.inl hacc
    · exact Or.inr ⟨r', List.mem_cons_of_mem r hr', ht⟩

/-- The maximum timestamp of a dataset is the timestamp of one of its
records. -/
theorem max_timestamp_mem (recs : List AggRec) (t : Ts)
    (h : max_timestamp recs = some t) : ∃ r ∈ recs, r.ts = t := by
  rcases max_fold_mem recs none t h with hacc | hmem
  · exact absurd hacc (by simp)
  · exact hmem

/-- C3 (amended): when the dataset maximum timestamp lies in March 2024,
past the declared end 2024-01-31, the report flags records beyond the
declared range and months_beyond is (2024 − 2024)·12 + (3 − 1) = 2, the
year-and-month delta the source computes — not 1. -/
theorem c3_months_beyond_is_two (recs : List AggRec) (t : Ts)
    (hmax : max_timestamp recs = some t) (hy : t.year = 2024) (hm : t.month = 3)
    (hb : Ts.ltB declared_end t = true) :
    0 < (analyze_temporal_discrepancy recs).beyond_count ∧
      (analyze_temporal_discrepancy recs).months_beyond = some 2 := by
  obtain ⟨r, hr, hrt⟩ := max_timestamp_mem recs t hmax
  have hpos : 0 < recs.countP beyond_declaredB := by
    rw [List.countP_pos_iff]
    exact ⟨r, hr, by simp [beyond_declaredB, hrt, hb]⟩
  refine ⟨hpos, ?_⟩
  simp only [analyze_temporal_discrepancy, hmax, if_pos hpos]
  have : (t.year - declared_end.year) * 12 + (t.month - declared_end.month) = 2 := by
    have hey : declared_end.year = 2024 := rfl
    have hem : declared_end.month = 1 := rfl
    rw [hy, hm, hey, hem]
    norm_num
  rw [this]

/-- Dataset of the C3 scenario: one record stamped 2024-03-15, past the
declared end 2024-01-31. -/
def c3_recs : List AggRec := [⟨⟨2024, 3, 15, 10, 0⟩, some 34, none, none⟩]

/-- C3 counterexample: on a dataset with maximum timestamp 2024-03-15 the
source reports months_beyond 2, so the claimed value 1 is false. -/
theorem c3_claim_value_false :
    0 < (analyze_temporal_discrepancy c3_recs).beyond_count ∧
      (analyze_temporal_discrepancy c3_recs).months_beyond ≠ some 1 := by decide

/-- Witness of the amended C3 statement at the scenario dataset. -/
theorem c3_months_beyond_is_two_witness :
    0 < (analyze_temporal_discrepancy c3_recs).beyond_count ∧
      (analyze_temporal_discrepancy c3_recs).months_beyond = some 2 :=
  c3_months_beyond_is_two c3_recs ⟨2024, 3, 15, 10, 0⟩ (by decide) rfl rfl (by decide)

/-- Membership in a drop_duplicates pass: a row survives exactly when it
occurs in the input and was not seen before the pass started. -/
theorem mem_dedup_seen (l : List Row) : ∀ (seen : List Row) (a : Row),
    a ∈ dedup_seen seen l ↔ a ∈ l ∧ a ∉ seen := by
  induction l with
  | nil => intro seen a; simp [dedup_seen]
  | cons r rest ih =>
    intro seen a
    simp only [dedup_seen]
    split
    · rename_i hr
      rw [ih]
      simp only [List.mem_cons]
      constructor
      · rintro ⟨h1, h2⟩
        exact ⟨Or.inr h1, h2⟩
      · rintro ⟨h1 | h1, h2⟩
        · cases h1
          exact absurd hr h2
        · exact ⟨h1, h2⟩
    · rename_i hr
      simp only [List.mem_cons, ih (r :: seen) a, List.mem_cons]
      constructor
      · rintro (h1 | ⟨h1, h2⟩)
        · exact ⟨Or.inl h1, fun hc => hr (h1 ▸ hc)⟩
        · exact ⟨Or.inr h1, fun hc => h2 (Or.inr hc)⟩
      · rintro ⟨h1 | h1, h2⟩
        · exact Or.inl h1
        · by_cases hae : a = r
          · exact Or.inl hae
          · exact Or.inr ⟨h1, fun hc => (hc.elim hae h2)⟩

/-- A drop_duplicates pass yields a sublist of its input: surviving rows keep
their input order and multiplicity. -/
theorem dedup_seen_sublist (l : List Row) : ∀ seen : List Row,
    (dedup_seen seen l).Sublist l := by
  induction l with
  | nil => intro seen; simp [dedup_seen]
  | cons r rest ih =>
    intro seen
    simp only [dedup_seen]
    split
    · exact (ih seen).cons r
    · exact (ih (r :: seen)).cons₂ r

/-- A drop_duplicates pass yields no duplicate rows. -/
theorem dedup_seen_nodup (l : List Row) : ∀ seen : List Row,
    (dedup_seen seen l).Nodup := by
  induction l with
  | nil => intro seen; simp [dedup_seen]
  | cons r rest ih =>
    intro seen
    simp only [dedup_seen]
    split
    · exact ih seen
    · rw [List.nodup_cons]
      refine ⟨fun hmem => ?_, ih (r :: seen)⟩
      rw [mem_dedup_seen] at hmem
      exact hmem.2 (List.mem_cons_self r seen)

/-- A drop_duplicates pass over an already duplicate-free input disjoint
from the seen rows is the identity. -/
theorem dedup_seen_of_nodup (l : List Row) : ∀ seen : List Row, l.Nodup →
    (∀ x ∈ l, x ∉ seen) → dedup_seen seen l = l := by
  induction l with
  | nil => intro seen _ _; rfl
  | cons r rest ih =>
    intro seen hnd hdisj
    rw [List.nodup_cons] at hnd
    simp only [dedup_seen]
    rw [if_neg (hdisj r (List.mem_cons_self r rest))]
    congr 1
    refine ih (r :: seen) hnd.2 ?_
    intro x hx hmem
    rcases List.mem_cons.mp hmem with h | h
    · exact hnd.1 (h ▸ hx)
    · exact hdisj x (List.mem_cons_of_mem r hx) h

/-- The seen accumulator of a drop_duplicates pass matters only through
membership. -/
theorem dedup_seen_congr (l : List Row) : ∀ seen₁ seen₂ : List Row,
    (∀ x : Row, x ∈ seen₁ ↔ x ∈ seen₂) → dedup_seen seen₁ l = dedup_seen seen₂ l := by
  induction l with
  | nil => intro _ _ _; rfl
  | cons r rest ih =>
    intro s1 s2 h
    simp only [dedup_seen]
    by_cases hr : r ∈ s1
    · rw [if_pos hr, if_pos ((h r).mp hr)]
      exact ih s1 s2 h
    · rw [if_neg hr, if_neg (fun hc => hr ((h r).mpr hc))]
      congr 1
      refine ih (r :: s1) (r :: s2) ?_
      intro x
      simp [List.mem_cons, h x]

/-- Marking a row seen is the same as deleting its later occurrences up
front: the keep-first shape of drop_duplicates. -/
theorem dedup_seen_cons_filter (l : List Row) : ∀ (seen : List Row) (a : Row),
    dedup_seen (a :: seen) l = dedup_seen seen (l.filter (fun b => !(decide (b = a)))) := by
  induction l with
  | nil => intro _ _; rfl
  | cons r rest ih =>
    intro seen a
    by_cases hra : r = a
    · subst hra
      simp only [List.filter_cons]
      rw [if_neg (by simp)]
      simp only [dedup_seen, if_pos (List.mem_cons_self r seen)]
      exact ih seen r
    · simp only [List.filter_cons]
      rw [if_pos (by simp [hra])]
      by_cases hrs : r ∈ seen
      · rw [dedup_seen, if_pos (List.mem_cons_of_mem a hrs)]
        rw [dedup_seen, if_pos hrs]
        exact ih seen a
      · rw [dedup_seen, if_neg (by simp [List.mem_cons, hra, hrs])]
        rw [dedup_seen, if_neg hrs]
        congr 1
        rw [dedup_seen_congr rest (r :: a :: seen) (a :: r :: seen)
          (fun x => by simp [List.mem_cons]; tauto)]
        exact ih (r :: seen) a

/-- C8: remove_duplicates removes exactly the rows equal to an earlier row.
Its output is a sublist of the input (first occurrences in input order), it
keeps every distinct row, the output is duplicate-free, running it on its
own output removes nothing more, and on a nonempty input it keeps the head
and recurs after deleting the later copies of the head. -/
theorem c8_remove_duplicates_spec (rows : List Row) :
    (remove_duplicates rows).Sublist rows ∧
    (∀ r : Row, r ∈ remove_duplicates rows ↔ r ∈ rows) ∧
    (remove_duplicates rows).Nodup ∧
    remove_duplicates (remove_duplicates rows) = remove_duplicates rows ∧
    (∀ (a : Row) (t : List Row), remove_duplicates (a :: t) =
      a :: remove_duplicates (t.filter (fun b => !(decide (b = a))))) := by
  refine ⟨dedup_seen_sublist rows [], ?_, dedup_seen_nodup rows [], ?_, ?_⟩
  · intro r
    rw [remove_duplicates, mem_dedup_seen]
    simp
  · exact dedup_seen_of_nodup _ [] (dedup_seen_nodup rows []) (by simp)
  · intro a t
    simp only [remove_duplicates, dedup_seen]
    rw [if_neg (List.not_mem_nil a)]
    congr 1
    exact dedup_seen_cons_filter t [] a

/-- Dropping the zero-count buckets does not change the total record count. -/
theorem sum_record_count_filter_pos (l : List Bucket) :
    (((l.filter (fun b => 0 < b.record_count)).map Bucket.record_count).sum) =
      ((l.map Bucket.record_count).sum) := by
  induction l with
  | nil => rfl
  | cons b t ih =>
    simp only [List.filter_cons]
    by_cases hb : 0 < b.record_count
    · rw [if_pos (by simpa using hb)]
      simp only [List.map_cons, List.sum_cons, ih]
    · rw [if_neg (by simpa using hb)]
      have hz : b.record_count = 0 := by omega
      simp only [List.map_cons, List.sum_cons, ih, hz]
      omega

/-- Splitting a pointwise sum of two tallies. -/
theorem sum_map_add_split (l : List Int) (f g : Int → Nat) :
    (l.map (fun x => f x + g x)).sum = (l.map f).sum + (l.map g).sum := by
  induction l with
  | nil => rfl
  | cons x t ih => simp only [List.map_cons, List.sum_cons, ih]; omega

/-- A tally over keys that never match is zero. -/
theorem sum_indicator_zero (keys : List Int) (v : Int) (hv : v ∉ keys) (b : Bool) :
    (keys.map (fun k => if decide (v = k) && b then (1 : Nat) else 0)).sum = 0 := by
  induction keys with
  | nil => rfl
  | cons k t ih =>
    simp only [List.map_cons, List.sum_cons]
    rw [List.mem_cons] at hv
    push_neg at hv
    rw [if_neg (by simp [hv.1]), ih hv.2]

/-- A tally over duplicate-free keys containing the value counts it once. -/
theorem sum_indicator_single (keys : List Int) (hnd : keys.Nodup) (v : Int)
    (hv : v ∈ keys) (b : Bool) :
    (keys.map (fun k => if decide (v = k) && b then (1 : Nat) else 0)).sum =
      if b then 1 else 0 := by
  induction keys with
  | nil => cases hv
  | cons k t ih =>
    rw [List.nodup_cons] at hnd
    simp only [List.map_cons, List.sum_cons]
    by_cases hvk : v = k
    · rw [sum_indicator_zero t v (hvk ▸ hnd.1) b]
      cases b <;> simp [hvk]
    · rw [if_neg (by simp [hvk])]
      rcases List.mem_cons.mp hv with h | h
      · exact absurd h hvk
      · rw [ih hnd.2 h]
        omega

/-- Records tallied bucket by bucket over a duplicate-free key enumeration
covering every record add up to the plain tally. -/
theorem sum_countP_by_key (keys : List Int) (hnd : keys.Nodup) (l : List AggRec)
    (f : AggRec → Int) (p : AggRec → Bool) (hall : ∀ r ∈ l, f r ∈ keys) :
    (keys.map (fun k => l.countP (fun r => decide (f r = k) && p r))).sum = l.countP p := by
  induction l with
  | nil => simp
  | cons r t ih =>
    simp only [List.countP_cons]
    have hsplit : (keys.map (fun k => t.countP (fun x => decide (f x = k) && p x) +
        if decide (f r = k) && p r then 1 else 0)).sum =
        (keys.map (fun k => t.countP (fun x => decide (f x = k) && p x))).sum +
        (keys.map (fun k => if decide (f r = k) && p r then (1 : Nat) else 0)).sum :=
      sum_map_add_split keys _ _
    rw [hsplit, ih (fun x hx => hall x (List.mem_cons_of_mem r hx)),
      sum_indicator_single keys hnd (f r) (hall r (List.mem_cons_self r t)) (p r)]

/-- Lower bound of the running minimum fold. -/
theorem foldl_min_le_init (ks : List Int) : ∀ acc : Int, ks.foldl min acc ≤ acc := by
  induction ks with
  | nil => intro acc; exact le_refl acc
  | cons a t ih =>
    intro acc
    calc (a :: t).foldl min acc = t.foldl min (min acc a) := rfl
    _ ≤ min acc a := ih (min acc a)
    _ ≤ acc := min_le_left acc a

/-- The running minimum fold bounds every member from below. -/
theorem foldl_min_le_mem (ks : List Int) : ∀ (acc x : Int), x ∈ ks →
    ks.foldl min acc ≤ x := by
  induction ks with
  | nil => intro _ x hx; cases hx
  | cons a t ih =>
    intro acc x hx
    rcases List.mem_cons.mp hx with h | h
    · subst h
      calc (x :: t).foldl min acc = t.foldl min (min acc x) := rfl
      _ ≤ min acc x := foldl_min_le_init t (min acc x)
      _ ≤ x := min_le_right acc x
    · exact ih (min acc a) x h

/-- Upper bound of the running maximum fold. -/
theorem le_foldl_max_init (ks : List Int) : ∀ acc : Int, acc ≤ ks.foldl max acc := by
  induction ks with
  | nil => intro acc; exact le_refl acc
  | cons a t ih =>
    intro acc
    calc acc ≤ max acc a := le_max_left acc a
    _ ≤ t.foldl max (max acc a) := ih (max acc a)
    _ = (a :: t).foldl max acc := rfl

/-- The running maximum fold bounds every member from above. -/
theorem le_foldl_max_mem (ks : List Int) : ∀ (acc x : Int), x ∈ ks →
    x ≤ ks.foldl max acc := by
  induction ks with
  | nil => intro _ x hx; cases hx
  | cons a t ih =>
    intro acc x hx
    rcases List.mem_cons.mp hx with h | h
    · subst h
      calc x ≤ max acc x := le_max_right acc x
      _ ≤ t.foldl max (max acc x) := le_foldl_max_init t (max acc x)
      _ = (x :: t).foldl max acc := rfl
    · exact ih (max acc a) x h

/-- The enumeration of bucket keys is strictly ascending. -/
theorem key_range_pairwise (lo hi : Int) :
    (key_range lo hi).Pairwise (fun a b => a < b) := by
  unfold key_range
  refine List.Pairwise.map (fun i : Nat => lo + (i : Int)) ?_
    (List.pairwise_lt_range ((hi - lo + 1).toNat))
  intro a b hab
  show lo + (a : Int) < lo + (b : Int)
  omega

/-- The enumeration of bucket keys has no duplicate key. -/
theorem key_range_nodup (lo hi : Int) : (key_range lo hi).Nodup :=
  (key_range_pairwise lo hi).imp (fun h => ne_of_lt h)

/-- Every key between the bounds occurs in the enumeration. -/
theorem mem_key_range (lo hi x : Int) (h1 : lo ≤ x) (h2 : x ≤ hi) :
    x ∈ key_range lo hi := by
  have hx : x = lo + ((x - lo).toNat : Int) := by omega
  rw [hx]
  unfold key_range
  apply List.mem_map_of_mem
  rw [List.mem_range]
  omega

/-- Shared contract of the resampling step: emitted buckets have nonzero
record count, are sorted by chronological key ascending, and their record
counts add up to the records carrying a non-null count proxy value. -/
theorem aggregate_by_spec (key : AggRec → Int) (recs : List AggRec) :
    (∀ b ∈ aggregate_by key recs, 0 < b.record_count) ∧
    ((aggregate_by key recs).map Bucket.key).Pairwise (fun a b => a < b) ∧
    ((aggregate_by key recs).map Bucket.record_count).sum =
      recs.countP (fun r => r.vehicle_gps_latitude.isSome) := by
  cases recs with
  | nil => exact ⟨fun b hb => absurd hb (List.not_mem_nil b), List.Pairwise.nil, rfl⟩
  | cons r0 rest =>
    have hagg : aggregate_by key (r0 :: rest) =
        ((key_range ((rest.map (fun r => key r)).foldl min (key r0))
            ((rest.map (fun r => key r)).foldl max (key r0))).map
          (mk_bucket key (r0 :: rest))).filter (fun b => 0 < b.record_count) := rfl
    have hkeys : ∀ r ∈ r0 :: rest, key r ∈ key_range
        ((rest.map (fun r => key r)).foldl min (key r0))
        ((rest.map (fun r => key r)).foldl max (key r0)) := by
      intro r hr
      apply mem_key_range
      · rcases List.mem_cons.mp hr with h | h
        · subst h
          exact foldl_min_le_init _ _
        · exact foldl_min_le_mem _ _ _ (List.mem_map_of_mem (fun r => key r) h)
      · rcases List.mem_cons.mp hr with h | h
        · subst h
          exact le_foldl_max_init _ _
        · exact le_foldl_max_mem _ _ _ (List.mem_map_of_mem (fun r => key r) h)
    have hid : ((key_range ((rest.map (fun r => key r)).foldl min (key r0))
          ((rest.map (fun r => key r)).foldl max (key r0))).map
        (mk_bucket key (r0 :: rest))).map Bucket.key =
        key_range ((rest.map (fun r => key r)).foldl min (key r0))
          ((rest.map (fun r => key r)).foldl max (key r0)) := by
      rw [List.map_map]
      exact List.map_id _
    rw [hagg]
    refine ⟨?_, ?_, ?_⟩
    · intro b hb
      simpa using (List.mem_filter.mp hb).2
    · refine List.Pairwise.sublist (List.Sublist.map Bucket.key (List.filter_sublist _)) ?_
      rw [hid]
      exact key_range_pairwise _ _
    · rw [sum_record_count_filter_pos, List.map_map]
      have hpt : ∀ k : Int, (Bucket.record_count ∘ mk_bucket key (r0 :: rest)) k =
          (r0 :: rest).countP (fun r => decide (key r = k) && r.vehicle_gps_latitude.isSome) := by
        intro k
        show ((r0 :: rest).filter (fun r => decide (key r = k))).countP
            (fun r => r.vehicle_gps_latitude.isSome) = _
        rw [List.countP_filter]
        refine List.countP_congr ?_
        intro r _
        cases hd : decide (key r = k) <;> cases hl : r.vehicle_gps_latitude.isSome <;>
          simp [hd, hl]
      rw [List.map_congr_left (fun k _ => hpt k)]
      exact sum_countP_by_key _ (key_range_nodup _ _) _ _ _ hkeys

/-- Dataset showing the count proxy at work: one in-range record whose
vehicle_gps_latitude is null. -/
def c7_recs : List AggRec := [⟨⟨2021, 5, 1, 3, 0⟩, none, some 5, none⟩]

/-- C7 counterexample: the count reducer runs on vehicle_gps_latitude, so a
record with a null latitude is not counted (and its day, holding only that
record, is dropped as a zero-count bucket); the emitted counts sum to 0,
not to the 1 filtered record with a parseable timestamp. -/
theorem c7_sum_equals_rows_false :
    ((aggregate_daily c7_recs).map Bucket.record_count).sum ≠ c7_recs.length := by decide

/-- C7 (amended): daily and weekly aggregation emit no bucket with a zero
record count, emit buckets sorted by chronological key ascending, and the
per-bucket record counts sum to the number of filtered records with a
non-null vehicle_gps_latitude, the count proxy column. -/
theorem c7_aggregate_daily_weekly_spec (recs : List AggRec) :
    (∀ b ∈ aggregate_daily recs, 0 < b.record_count) ∧
    ((aggregate_daily recs).map Bucket.key).Pairwise (fun a b => a < b) ∧
    ((aggregate_daily recs).map Bucket.record_count).sum =
      recs.countP (fun r => r.vehicle_gps_latitude.isSome) ∧
    (∀ b ∈ aggregate_weekly recs, 0 < b.record_count) ∧
    ((aggregate_weekly recs).map Bucket.key).Pairwise (fun a b => a < b) ∧
    ((aggregate_weekly recs).map Bucket.record_count).sum =
      recs.countP (fun r => r.vehicle_gps_latitude.isSome) := by
  obtain ⟨d1, d2, d3⟩ := aggregate_by_spec (fun r => day_key r.ts) recs
  obtain ⟨w1, w2, w3⟩ := aggregate_by_spec (fun r => week_key r.ts) recs
  exact ⟨d1, d2, d3, w1, w2, w3⟩

/-- Median imputation of a column never adds or removes a row. -/
theorem length_fill_column (get : Row → Option ℚ) (set : Row → ℚ → Row) (rows : List Row) :
    (fill_column get set rows).length = rows.length := by
  unfold fill_column
  split
  · split <;> simp
  · rfl

/-- Numeric imputation never adds or removes a row. -/
theorem length_impute_numeric (rows : List Row) :
    (impute_numeric rows).length = rows.length := by
  unfold impute_numeric
  simp only [length_fill_column]

/-- Categorical imputation never adds or removes a row. -/
theorem length_impute_categorical (rows : List Row) :
    (impute_categorical rows).length = rows.length := by
  unfold impute_categorical
  split
  · simp
  · rfl

/-- The row count after handle_missing_values is the count of rows passing
the critical-field test: imputation drops nothing. -/
theorem length_handle_missing (rows : List Row) :
    (handle_missing_values rows).length = (rows.filter keep_critical).length := by
  unfold handle_missing_values
  rw [length_impute_categorical, length_impute_numeric]

/-- C9: type coercion maps an unparsable or empty cell to the null marker and
a numeric cell to its value, as a total function (no exception); and for
every input the rows dropped up to the end of handle_missing_values are
exactly those with an unparsable or missing timestamp or an unparsable or
missing GPS coordinate — a defective value in any other column never
removes a row. -/
theorem c9_coercion_and_drop_semantics :
    (to_numeric RawCell.junk = none ∧ to_numeric RawCell.blank = none ∧
      (∀ q : ℚ, to_numeric (RawCell.num q) = some q) ∧
      to_datetime RawTs.junk = none ∧ to_datetime RawTs.blank = none) ∧
    ∀ raws : List RawRow,
      (handle_missing_values (analyze_data_types raws)).length =
        raws.countP (fun rr => (to_datetime rr.timestamp).isSome &&
          (to_numeric rr.vehicle_gps_latitude).isSome &&
          (to_numeric rr.vehicle_gps_longitude).isSome) := by
  refine ⟨⟨rfl, rfl, fun q => rfl, rfl, rfl⟩, ?_⟩
  intro raws
  rw [length_handle_missing]
  unfold analyze_data_types
  rw [← List.countP_eq_length_filter, List.countP_map]
  rfl

/-- A null indicator is at most one. -/
theorem null_ind_le_one {α : Type} (c : Option α) : null_ind c ≤ 1 := by
  unfold null_ind
  split <;> omega

/-- A row holds at most as many nulls as the dataframe has columns. -/
theorem null_count_row_le (r : Row) : null_count_row r ≤ 30 := by
  unfold null_count_row
  have h01 := null_ind_le_one r.timestamp
  have h02 := null_ind_le_one r.vehicle_gps_latitude
  have h03 := null_ind_le_one r.vehicle_gps_longitude
  have h04 := null_ind_le_one r.fuel_consumption_rate
  have h05 := null_ind_le_one r.eta_variation_hours
  have h06 := null_ind_le_one r.traffic_congestion_level
  have h07 := null_ind_le_one r.warehouse_inventory_level
  have h08 := null_ind_le_one r.loading_unloading_time
  have h09 := null_ind_le_one r.weather_condition_severity
  have h10 := null_ind_le_one r.port_congestion_level
  have h11 := null_ind_le_one r.shipping_costs
  have h12 := null_ind_le_one r.supplier_reliability_score
  have h13 := null_ind_le_one r.lead_time_days
  have h14 := null_ind_le_one r.historical_demand
  have h15 := null_ind_le_one r.iot_temperature
  have h16 := null_ind_le_one r.route_risk_level
  have h17 := null_ind_le_one r.customs_clearance_time
  have h18 := null_ind_le_one r.driver_behavior_score
  have h19 := null_ind_le_one r.fatigue_monitoring_score
  have h20 := null_ind_le_one r.disruption_likelihood_score
  have h21 := null_ind_le_one r.delay_probability
  have h22 := null_ind_le_one r.delivery_time_deviation
  have h23 := null_ind_le_one r.handling_equipment_availability
  have h24 := null_ind_le_one r.order_fulfillment_status
  have h25 := null_ind_le_one r.cargo_condition_status
  have h26 := null_ind_le_one r.risk_classification
  omega

/-- The dataframe nulls are bounded by rows times columns. -/
theorem sum_null_counts_le (rows : List Row) :
    (rows.map null_count_row).sum ≤ rows.length * 30 := by
  have h := List.sum_le_card_nsmul (rows.map null_count_row) 30 (fun x hx => by
    obtain ⟨r, _, rfl⟩ := List.mem_map.mp hx
    exact null_count_row_le r)
  simpa [smul_eq_mul] using h

/-- Under a two-sided clamp with ordered bounds one cell is corrected at most
once: a value below the minimum is raised to the minimum and then cannot
exceed the maximum. -/
theorem corr_both_le_one (m M : ℚ) (h : m ≤ M) (c : Option ℚ) : corr_both m M c ≤ 1 := by
  unfold corr_both
  cases c with
  | none => simp [cell_ltB, cell_gtB, clamp_min_cell]
  | some q =>
    by_cases hq : q < m
    · have hMm : ¬ M < m := not_lt.mpr h
      simp [cell_ltB, cell_gtB, clamp_min_cell, hq, hMm]
    · simp only [cell_ltB, clamp_min_cell, if_neg hq, decide_eq_true_eq, cell_gtB]
      split <;> omega

/-- Under a one-sided clamp one cell is corrected at most once. -/
theorem corr_min_le_one (m : ℚ) (c : Option ℚ) : corr_min m c ≤ 1 := by
  unfold corr_min
  split <;> omega

/-- A row contributes at most 21 corrections, one per validated column. -/
theorem range_corrections_row_le (r : Row) : range_corrections_row r ≤ 21 := by
  unfold range_corrections_row
  have h01 := corr_both_le_one (-90) 90 (by norm_num) r.vehicle_gps_latitude
  have h02 := corr_both_le_one (-180) 180 (by norm_num) r.vehicle_gps_longitude
  have h03 := corr_min_le_one 0 r.fuel_consumption_rate
  have h04 := corr_both_le_one 0 10 (by norm_num) r.traffic_congestion_level
  have h05 := corr_both_le_one 0 1 (by norm_num) r.weather_condition_severity
  have h06 := corr_both_le_one 0 10 (by norm_num) r.port_congestion_level
  have h07 := corr_both_le_one 0 10 (by norm_num) r.route_risk_level
  have h08 := corr_min_le_one 0 r.shipping_costs
  have h09 := corr_both_le_one 0 1 (by norm_num) r.supplier_reliability_score
  have h10 := corr_min_le_one 0 r.lead_time_days
  have h11 := corr_min_le_one 0 r.historical_demand
  have h12 := corr_both_le_one 0 1 (by norm_num) r.driver_behavior_score
  have h13 := corr_both_le_one 0 1 (by norm_num) r.fatigue_monitoring_score
  have h14 := corr_both_le_one 0 1 (by norm_num) r.handling_equipment_availability
  have h15 := corr_both_le_one 0 1 (by norm_num) r.order_fulfillment_status
  have h16 := corr_both_le_one 0 1 (by norm_num) r.cargo_condition_status
  have h17 := corr_min_le_one 0 r.loading_unloading_time
  have h18 := corr_min_le_one 0 r.warehouse_inventory_level
  have h19 := corr_both_le_one 0 1 (by norm_num) r.disruption_likelihood_score
  have h20 := corr_both_le_one 0 1 (by norm_num) r.delay_probability
  have h21 := corr_min_le_one 0 r.customs_clearance_time
  omega

/-- The corrections of validate_ranges are bounded by 21 per row. -/
theorem sum_range_corrections_le (rows : List Row) :
    (rows.map range_corrections_row).sum ≤ rows.length * 21 := by
  have h := List.sum_le_card_nsmul (rows.map range_corrections_row) 21 (fun x hx => by
    obtain ⟨r, _, rfl⟩ := List.mem_map.mp hx
    exact range_corrections_row_le r)
  simpa [smul_eq_mul] using h

/-- A column flags at most one outlier per row. -/
theorem outlier_count_col_le (cells : List (Option ℚ)) :
    outlier_count_col cells ≤ cells.length := by
  unfold outlier_count_col
  split
  · exact List.countP_le_length _
  · exact Nat.zero_le _

/-- The six outlier checks flag at most six observations per row. -/
theorem total_outliers_le (rows : List Row) : total_outliers rows ≤ rows.length * 6 := by
  unfold total_outliers
  have h1 := outlier_count_col_le (rows.map (fun r => r.fuel_consumption_rate))
  have h2 := outlier_count_col_le (rows.map (fun r => r.shipping_costs))
  have h3 := outlier_count_col_le (rows.map (fun r => r.warehouse_inventory_level))
  have h4 := outlier_count_col_le (rows.map (fun r => r.historical_demand))
  have h5 := outlier_count_col_le (rows.map (fun r => r.iot_temperature))
  have h6 := outlier_count_col_le (rows.map (fun r => r.loading_unloading_time))
  simp only [List.length_map] at h1 h2 h3 h4 h5 h6
  omega

/-- A binary-column pass never adds or removes a row. -/
theorem length_bin_column (get : Row → Option ℚ) (set : Row → Option ℚ → Row)
    (rows : List Row) : (bin_column get set rows).length = rows.length := by
  unfold bin_column
  split <;> simp

/-- validate_binary_fields never adds or removes a row. -/
theorem length_validate_binary (rows : List Row) :
    (validate_binary_fields rows).length = rows.length := by
  unfold validate_binary_fields
  simp only [length_bin_column]

/-- The row count of the saved dataset is the row count right after
duplicate removal: clamping, sorting and flagging keep every row. -/
theorem length_cleaned_rows (raws : List RawRow) :
    (cleaned_rows raws).length = (deduped_rows raws).length := by
  unfold cleaned_rows create_data_quality_flags validate_temporal range_validated validate_ranges
  simp only [List.length_map, length_sort_by, length_validate_binary]

/-- The missing-value stage never grows the dataset. -/
theorem handled_le_original (raws : List RawRow) :
    (handled_rows raws).length ≤ raws.length := by
  unfold handled_rows
  rw [length_handle_missing]
  calc ((analyze_data_types raws).filter keep_critical).length
      ≤ (analyze_data_types raws).length := List.length_filter_le _ _
    _ = raws.length := by simp [analyze_data_types]

/-- Duplicate removal never grows the dataset. -/
theorem deduped_le_handled (raws : List RawRow) :
    (deduped_rows raws).length ≤ (handled_rows raws).length :=
  List.Sublist.length_le (dedup_seen_sublist _ [])

/-- The corrections reported by validate_ranges are the summed per-row
correction counts. -/
theorem validate_ranges_snd (rows : List Row) :
    (validate_ranges rows).2 = (rows.map range_corrections_row).sum := rfl

/-- A percentage of the shape (1 - num/den)·100 with 0 ≤ num ≤ den lies in
the unit percent range. -/
theorem one_sub_ratio_bounds (num den : ℚ) (h0 : 0 ≤ num) (hden : 0 < den)
    (hle : num ≤ den) : 0 ≤ (1 - num / den) * 100 ∧ (1 - num / den) * 100 ≤ 100 := by
  have h1 : num / den ≤ 1 := (div_le_one hden).mpr hle
  have h2 : 0 ≤ num / den := div_nonneg h0 (le_of_lt hden)
  constructor <;> linarith

/-- A percentage of the shape (num/den)·100 with 0 ≤ num ≤ den lies in the
unit percent range. -/
theorem ratio_pct_bounds (num den : ℚ) (h0 : 0 ≤ num) (hden : 0 < den)
    (hle : num ≤ den) : 0 ≤ num / den * 100 ∧ num / den * 100 ≤ 100 := by
  have h1 : num / den ≤ 1 := (div_le_one hden).mpr hle
  have h2 : 0 ≤ num / den := div_nonneg h0 (le_of_lt hden)
  constructor <;> linarith


/-- Bounds of a produced quality report: with the duplicate count at most
the original row count and the corrections at most rows times columns, all
five scores and the weighted composite lie in [0,100]. -/
theorem quality_report_bounds (frows : List FlaggedRow) (d o c : Nat) (rep : QualityReport)
    (h : calculate_data_quality_score frows d o c = some rep)
    (hd : d ≤ o) (hcorr : c ≤ frows.length * 30) :
    (0 ≤ rep.completeness ∧ rep.completeness ≤ 100) ∧
    (0 ≤ rep.uniqueness ∧ rep.uniqueness ≤ 100) ∧
    (0 ≤ rep.validity ∧ rep.validity ≤ 100) ∧
    (0 ≤ rep.consistency ∧ rep.consistency ≤ 100) ∧
    (0 ≤ rep.outlier_pct ∧ rep.outlier_pct ≤ 100) ∧
    rep.score = rep.completeness * 0.25 + rep.uniqueness * 0.2 + rep.validity * 0.25 +
      rep.consistency * 0.2 + (100 - rep.outlier_pct) * 0.1 ∧
    0 ≤ rep.score ∧ rep.score ≤ 100 := by
  simp only [calculate_data_quality_score] at h
  split at h
  · exact absurd h (by simp)
  · rename_i hcond
    rw [Option.some.injEq] at h
    subst h
    push_neg at hcond
    obtain ⟨hn, ho⟩ := hcond
    have hnpos : 0 < frows.length := Nat.pos_of_ne_zero hn
    have hbase : (frows.map FlaggedRow.base).length = frows.length := List.length_map _ _
    have hnQ : (0 : ℚ) < (frows.length : ℚ) := by exact_mod_cast hnpos
    have hoQ : (0 : ℚ) < (o : ℚ) := by exact_mod_cast Nat.pos_of_ne_zero ho
    have hcolsQ : ((num_columns : ℕ) : ℚ) = 30 := by norm_num [num_columns]
    have hdenQ : (0 : ℚ) < (frows.length : ℚ) * ((num_columns : ℕ) : ℚ) := by
      rw [hcolsQ]
      positivity
    have hsumN : ((frows.map FlaggedRow.base).map null_count_row).sum ≤
        frows.length * 30 := by
      have hs := sum_null_counts_le (frows.map FlaggedRow.base)
      rwa [hbase] at hs
    have hcomp := one_sub_ratio_bounds
      (((frows.map FlaggedRow.base).map null_count_row).sum : ℚ)
      ((frows.length : ℚ) * ((num_columns : ℕ) : ℚ))
      (by positivity) hdenQ (by rw [hcolsQ]; exact_mod_cast hsumN)
    have huniq := one_sub_ratio_bounds ((d : ℚ)) ((o : ℚ))
      (by positivity) hoQ (by exact_mod_cast hd)
    have hvalid := one_sub_ratio_bounds ((c : ℚ))
      ((frows.length : ℚ) * ((num_columns : ℕ) : ℚ))
      (by positivity) hdenQ (by rw [hcolsQ]; exact_mod_cast hcorr)
    have hconsN : consistency_issues (frows.map FlaggedRow.base) ≤ frows.length := by
      have hc := List.countP_le_length
        (fun r => cell_eqB r.order_fulfillment_status 1 && cell_gtB r.delay_probability (4 / 5))
        (l := frows.map FlaggedRow.base)
      rw [hbase] at hc
      exact hc
    have hcons := one_sub_ratio_bounds
      ((consistency_issues (frows.map FlaggedRow.base) : ℚ))
      ((frows.length : ℚ)) (by positivity) hnQ (by exact_mod_cast hconsN)
    have houtN : total_outliers (frows.map FlaggedRow.base) ≤ frows.length * 6 := by
      have ht := total_outliers_le (frows.map FlaggedRow.base)
      rwa [hbase] at ht
    have hden6 : (0 : ℚ) < (frows.length : ℚ) * 6 := by positivity
    have hout := ratio_pct_bounds
      ((total_outliers (frows.map FlaggedRow.base) : ℚ))
      ((frows.length : ℚ) * 6) (by positivity) hden6 (by exact_mod_cast houtN)
    refine ⟨⟨hcomp.1, hcomp.2⟩, ⟨huniq.1, huniq.2⟩, ⟨hvalid.1, hvalid.2⟩,
      ⟨hcons.1, hcons.2⟩, ⟨hout.1, hout.2⟩, rfl, ?_, ?_⟩
    · have h1 := hcomp.1
      have h2 := huniq.1
      have h3 := hvalid.1
      have h4 := hcons.1
      have h5 := hout.2
      show (0 : ℚ) ≤ _
      linarith
    · have h1 := hcomp.2
      have h2 := huniq.2
      have h3 := hvalid.2
      have h4 := hcons.2
      have h5 := hout.1
      linarith

/-- C2 (amended): whenever the cleaning run produces a quality report, that
is, whenever the validated dataset is nonempty, the five quality scores lie
in [0,100], the composite equals the weighted sum of the source with
weights 0.25, 0.20, 0.25, 0.20 and 0.10, and the composite lies in
[0,100]. -/
theorem c2_quality_scores_in_range (raws : List RawRow) (rep : QualityReport)
    (h : clean_report raws = some rep) :
    (0 ≤ rep.completeness ∧ rep.completeness ≤ 100) ∧
    (0 ≤ rep.uniqueness ∧ rep.uniqueness ≤ 100) ∧
    (0 ≤ rep.validity ∧ rep.validity ≤ 100) ∧
    (0 ≤ rep.consistency ∧ rep.consistency ≤ 100) ∧
    (0 ≤ rep.outlier_pct ∧ rep.outlier_pct ≤ 100) ∧
    rep.score = rep.completeness * 0.25 + rep.uniqueness * 0.2 + rep.validity * 0.25 +
      rep.consistency * 0.2 + (100 - rep.outlier_pct) * 0.1 ∧
    0 ≤ rep.score ∧ rep.score ≤ 100 := by
  unfold clean_report at h
  refine quality_report_bounds (cleaned_rows raws) (duplicates_removed_count raws)
    raws.length ((range_validated raws).2) rep h ?_ ?_
  · exact le_trans (Nat.sub_le _ _) (handled_le_original raws)
  · have hs := sum_range_corrections_le (deduped_rows raws)
    have hlen := length_cleaned_rows raws
    have hdef : (range_validated raws).2 =
        ((deduped_rows raws).map range_corrections_row).sum := by
      unfold range_validated
      exact validate_ranges_snd _
    omega

/-- Raw row whose timestamp cell cannot be parsed; every other cell is a
well-formed value. -/
def c2_bad_raw : RawRow where
  timestamp := RawTs.junk
  vehicle_gps_latitude := RawCell.num 34
  vehicle_gps_longitude := RawCell.num (-118)
  fuel_consumption_rate := RawCell.num 5
  eta_variation_hours := RawCell.num 1
  traffic_congestion_level := RawCell.num 4
  warehouse_inventory_level := RawCell.num 100
  loading_unloading_time := RawCell.num 2
  weather_condition_severity := RawCell.num (1 / 2)
  port_congestion_level := RawCell.num 3
  shipping_costs := RawCell.num 500
  supplier_reliability_score := RawCell.num (9 / 10)
  lead_time_days := RawCell.num 4
  historical_demand := RawCell.num 1000
  iot_temperature := RawCell.num 20
  route_risk_level := RawCell.num 5
  customs_clearance_time := RawCell.num 3
  driver_behavior_score := RawCell.num (8 / 10)
  fatigue_monitoring_score := RawCell.num (2 / 10)
  disruption_likelihood_score := RawCell.num (3 / 10)
  delay_probability := RawCell.num (1 / 4)
  delivery_time_deviation := RawCell.num 0
  handling_equipment_availability := RawCell.num 1
  order_fulfillment_status := RawCell.num 1
  cargo_condition_status := RawCell.num 0
  risk_classification := RawCat.cat 2

/-- C2 counterexample: a nonempty input dataset of one record whose
timestamp does not parse.  Every row is dropped before scoring, the
completeness ratio is a NaN and the validity ratio raises
ZeroDivisionError, so no quality scores in [0,100] are produced. -/
theorem c2_nonempty_input_without_scores :
    ([c2_bad_raw] : List RawRow).length = 1 ∧ clean_report [c2_bad_raw] = none :=
  ⟨rfl, rfl⟩

/-- Raw row with every cell well formed, used to exhibit a run that reaches
the scorer. -/
def c2_good_raw : RawRow := { c2_bad_raw with timestamp := RawTs.time ⟨2022, 5, 3, 10, 0⟩ }

/-- Quality report of the one-good-row run. -/
def c2_good_report : QualityReport := (clean_report [c2_good_raw]).getD ⟨0, 0, 0, 0, 0, 0⟩

/-- Witness of the amended C2 statement at a concrete one-row dataset. -/
theorem c2_quality_scores_in_range_witness :
    (0 ≤ c2_good_report.completeness ∧ c2_good_report.completeness ≤ 100) ∧
    (0 ≤ c2_good_report.uniqueness ∧ c2_good_report.uniqueness ≤ 100) ∧
    (0 ≤ c2_good_report.validity ∧ c2_good_report.validity ≤ 100) ∧
    (0 ≤ c2_good_report.consistency ∧ c2_good_report.consistency ≤ 100) ∧
    (0 ≤ c2_good_report.outlier_pct ∧ c2_good_report.outlier_pct ≤ 100) ∧
    c2_good_report.score = c2_good_report.completeness * 0.25 +
      c2_good_report.uniqueness * 0.2 + c2_good_report.validity * 0.25 +
      c2_good_report.consistency * 0.2 + (100 - c2_good_report.outlier_pct) * 0.1 ∧
    0 ≤ c2_good_report.score ∧ c2_good_report.score ≤ 100 :=
  c2_quality_scores_in_range [c2_good_raw] c2_good_report (by rfl)

/-- C4: on the empty dataset the scorer produces no report at all: the
uniqueness ratio divides the Python ints 0 by 0 and raises
ZeroDivisionError (and the completeness ratio is already NaN), modelled by
the none result, so the division is not defined as 100 and the run aborts
before saving. -/
theorem c4_empty_dataset_scoring_errors :
    calculate_data_quality_score [] 0 0 0 = none ∧
      clean_report ([] : List RawRow) = none ∧
      clean_pipeline ([] : List RawRow) = none :=
  ⟨rfl, rfl, rfl⟩

/-- Membership under ordered insertion. -/
theorem mem_insert_sorted {α : Type} (le : α → α → Bool) (a x : α) (l : List α) :
    x ∈ insert_sorted le a l ↔ x = a ∨ x ∈ l := by
  induction l with
  | nil => simp [insert_sorted]
  | cons b t ih =>
    unfold insert_sorted
    split
    · simp only [List.mem_cons]
      try tauto
    · simp only [List.mem_cons, ih]
      try tauto

/-- Ordered insertion into a sorted list stays sorted, for a transitive and
total boolean ordering. -/
theorem pairwise_insert_sorted {α : Type} (le : α → α → Bool)
    (htrans : ∀ a b c, le a b = true → le b c = true → le a c = true)
    (htotal : ∀ a b, (le a b || le b a) = true)
    (a : α) (l : List α) (hl : l.Pairwise (fun x y => le x y = true)) :
    (insert_sorted le a l).Pairwise (fun x y => le x y = true) := by
  induction l with
  | nil => simp [insert_sorted]
  | cons b t ih =>
    rw [List.pairwise_cons] at hl
    unfold insert_sorted
    split
    · rename_i hab
      rw [List.pairwise_cons]
      constructor
      · intro x hx
        rcases List.mem_cons.mp hx with rfl | hx
        · exact hab
        · exact htrans a b x hab (hl.1 x hx)
      · rw [List.pairwise_cons]
        exact hl
    · rename_i hab
      have hba : le b a = true := by
        have ht := htotal a b
        rw [Bool.or_eq_true] at ht
        exact ht.resolve_left hab
      rw [List.pairwise_cons]
      constructor
      · intro x hx
        rcases (mem_insert_sorted le a x t).mp hx with rfl | hx
        · exact hba
        · exact hl.1 x hx
      · exact ih hl.2

/-- An insertion sort by a transitive and total boolean ordering emits a
sorted list. -/
theorem pairwise_sort_by {α : Type} (le : α → α → Bool)
    (htrans : ∀ a b c, le a b = true → le b c = true → le a c = true)
    (htotal : ∀ a b, (le a b || le b a) = true) (l : List α) :
    (sort_by le l).Pairwise (fun x y => le x y = true) := by
  induction l with
  | nil => exact List.Pairwise.nil
  | cons a t ih => exact pairwise_insert_sorted le htrans htotal a (sort_by le t) ih

/-- The timestamp ordering of sort_values is transitive. -/
theorem ts_key_leB_trans : ∀ a b c : Row, ts_key_leB a b = true → ts_key_leB b c = true →
    ts_key_leB a c = true := by
  intro a b c
  unfold ts_key_leB
  rcases a.timestamp with _ | x <;> rcases b.timestamp with _ | y <;>
    rcases c.timestamp with _ | z <;> simp [Ts.leB] <;> omega

/-- The timestamp ordering of sort_values is total. -/
theorem ts_key_leB_total : ∀ a b : Row, (ts_key_leB a b || ts_key_leB b a) = true := by
  intro a b
  unfold ts_key_leB
  rcases a.timestamp with _ | x <;> rcases b.timestamp with _ | y <;> simp [Ts.leB] <;> omega

/-- C10: the dataset saved by the cleaning pipeline is sorted by timestamp
ascending: validate_temporal sorts the rows before the flag columns are
appended and nothing after it reorders them, so every pair of records in
saved order satisfies the timestamp ordering (missing timestamps ordered
last, as sort_values places NaT last). -/
theorem c10_saved_dataset_sorted_by_timestamp (raws : List RawRow) :
    (cleaned_rows raws).Pairwise (fun a b : FlaggedRow => ts_key_leB a.base b.base = true) := by
  unfold cleaned_rows create_data_quality_flags
  have hp : (validate_temporal (validate_binary_fields (range_validated raws).1)).Pairwise
      (fun x y => ts_key_leB x y = true) := by
    unfold validate_temporal
    exact pairwise_sort_by ts_key_leB ts_key_leB_trans ts_key_leB_total _
  exact List.Pairwise.map create_flags (fun a b hab => hab) hp

/-- A possibly-missing cell whose present value lies in the unit interval. -/
def unit01 (c : Option ℚ) : Prop := ∀ q : ℚ, c = some q → 0 ≤ q ∧ q ≤ 1

/-- A possibly-missing cell whose present value is the flag 0 or 1. -/
def bin01 (c : Option ℚ) : Prop := ∀ q : ℚ, c = some q → q = 0 ∨ q = 1

/-- Declared interval domains of the non-binary bounded columns of the
range_validations dict: congestion and risk levels in [0,10], score and
probability columns in [0,1], latitude in [-90,90], longitude in
[-180,180]. -/
def bounded_cols_ok (r : Row) : Prop :=
  (∀ q : ℚ, r.traffic_congestion_level = some q → 0 ≤ q ∧ q ≤ 10) ∧
  (∀ q : ℚ, r.port_congestion_level = some q → 0 ≤ q ∧ q ≤ 10) ∧
  (∀ q : ℚ, r.route_risk_level = some q → 0 ≤ q ∧ q ≤ 10) ∧
  (∀ q : ℚ, r.weather_condition_severity = some q → 0 ≤ q ∧ q ≤ 1) ∧
  (∀ q : ℚ, r.supplier_reliability_score = some q → 0 ≤ q ∧ q ≤ 1) ∧
  (∀ q : ℚ, r.driver_behavior_score = some q → 0 ≤ q ∧ q ≤ 1) ∧
  (∀ q : ℚ, r.fatigue_monitoring_score = some q → 0 ≤ q ∧ q ≤ 1) ∧
  (∀ q : ℚ, r.disruption_likelihood_score = some q → 0 ≤ q ∧ q ≤ 1) ∧
  (∀ q : ℚ, r.delay_probability = some q → 0 ≤ q ∧ q ≤ 1) ∧
  (∀ q : ℚ, r.vehicle_gps_latitude = some q → -90 ≤ q ∧ q ≤ 90) ∧
  (∀ q : ℚ, r.vehicle_gps_longitude = some q → -180 ≤ q ∧ q ≤ 180)

/-- The C1 domains of one validated record: every bounded metric inside its
declared domain and every binary flag in the two-point set. -/
def in_declared_domains (r : Row) : Prop :=
  bounded_cols_ok r ∧ bin01 r.handling_equipment_availability ∧
    bin01 r.order_fulfillment_status ∧ bin01 r.cargo_condition_status

/-- Domains established by validate_ranges alone: the binary columns are so
far only clamped into [0,1]. -/
def ranged_ok (r : Row) : Prop :=
  bounded_cols_ok r ∧ unit01 r.handling_equipment_availability ∧
    unit01 r.order_fulfillment_status ∧ unit01 r.cargo_condition_status

/-- A two-sided clamp leaves any present value inside its bounds. -/
theorem clamp_both_cell_bounds (m M : ℚ) (h : m ≤ M) (c : Option ℚ) (q : ℚ)
    (hq : clamp_both_cell m M c = some q) : m ≤ q ∧ q ≤ M := by
  cases c with
  | none => simp [clamp_both_cell, clamp_min_cell, clamp_max_cell] at hq
  | some v =>
    unfold clamp_both_cell at hq
    rw [show clamp_min_cell m (some v) = if v < m then some m else some v from rfl] at hq
    split at hq
    · rw [show clamp_max_cell M (some m) = if M < m then some M else some m from rfl,
        if_neg (not_lt.mpr h)] at hq
      cases hq
      exact ⟨le_refl m, h⟩
    · rename_i hvm
      rw [show clamp_max_cell M (some v) = if M < v then some M else some v from rfl] at hq
      split at hq
      · cases hq
        exact ⟨h, le_refl M⟩
      · rename_i hMv
        cases hq
        exact ⟨not_lt.mp hvm, not_lt.mp hMv⟩

/-- Rounding and clipping into the unit step yields the flag 0 or 1 on any
present value. -/
theorem round_clip_cell_binary (c : Option ℚ) (q : ℚ)
    (hq : round_clip_cell c = some q) : q = 0 ∨ q = 1 := by
  cases c with
  | none => simp [round_clip_cell] at hq
  | some v =>
    simp only [round_clip_cell, Option.some.injEq] at hq
    subst hq
    rcases le_or_lt (round_half_even v) 0 with h | h
    · left
      have hm : min 1 (max 0 (round_half_even v)) = 0 := by omega
      rw [hm]
      norm_num
    · right
      have hm : min 1 (max 0 (round_half_even v)) = 1 := by omega
      rw [hm]
      norm_num

/-- A column that triggered no binary correction holds only the flags 0 and
1 in its present cells. -/
theorem non_binaryB_false (c : Option ℚ) (h : non_binaryB c = false) :
    ∀ q : ℚ, c = some q → q = 0 ∨ q = 1 := by
  intro q hq
  subst hq
  simp only [non_binaryB, Bool.not_eq_false', Bool.or_eq_true, decide_eq_true_eq] at h
  exact h

/-- The per-row clamp of validate_ranges puts every bounded column inside
its declared domain (binary columns inside [0,1]). -/
theorem clamp_row_ranged_ok (r : Row) : ranged_ok (clamp_row r) := by
  unfold ranged_ok bounded_cols_ok unit01 clamp_row
  refine ⟨⟨?_, ?_, ?_, ?_, ?_, ?_, ?_, ?_, ?_, ?_, ?_⟩, ?_, ?_, ?_⟩ <;>
    (intro q hq
     first
       | exact clamp_both_cell_bounds 0 10 (by norm_num) _ q hq
       | exact clamp_both_cell_bounds 0 1 (by norm_num) _ q hq
       | exact clamp_both_cell_bounds (-90) 90 (by norm_num) _ q hq
       | exact clamp_both_cell_bounds (-180) 180 (by norm_num) _ q hq)

/-- Origin of a row emitted by one binary-column pass: either the column was
corrected on a source row, or the pass was skipped because the whole column
was already binary. -/
theorem bin_column_mem {get : Row → Option ℚ} {set : Row → Option ℚ → Row}
    (rows : List Row) (r : Row) (hr : r ∈ bin_column get set rows) :
    (∃ r0 ∈ rows, r = set r0 (round_clip_cell (get r0))) ∨
    (r ∈ rows ∧ ∀ x ∈ rows, non_binaryB (get x) = false) := by
  unfold bin_column at hr
  split at hr
  · obtain ⟨r0, hr0, rfl⟩ := List.mem_map.mp hr
    exact Or.inl ⟨r0, hr0, rfl⟩
  · rename_i hany
    refine Or.inr ⟨hr, ?_⟩
    intro x hx
    rw [Bool.not_eq_true, List.any_eq_false] at hany
    exact Bool.eq_false_iff.mpr (hany x hx)

/-- First binary pass: the handling_equipment_availability column becomes a
0/1 flag while every other domain fact is untouched. -/
theorem bin_pass_handling (l0 : List Row) (h0 : ∀ x ∈ l0, ranged_ok x) :
    ∀ r ∈ bin_column (fun r => r.handling_equipment_availability)
      (fun r v => { r with handling_equipment_availability := v }) l0,
      bounded_cols_ok r ∧ bin01 r.handling_equipment_availability ∧
        unit01 r.order_fulfillment_status ∧ unit01 r.cargo_condition_status := by
  intro r hr
  rcases bin_column_mem l0 r hr with ⟨r0, hr0, rfl⟩ | ⟨hrm, hall⟩
  · obtain ⟨hb, _, ho, hc⟩ := h0 r0 hr0
    exact ⟨hb, fun q hq => round_clip_cell_binary _ q hq, ho, hc⟩
  · obtain ⟨hb, _, ho, hc⟩ := h0 r hrm
    exact ⟨hb, non_binaryB_false _ (hall r hrm), ho, hc⟩

/-- Second binary pass: the order_fulfillment_status column becomes a 0/1
flag while the earlier facts are untouched. -/
theorem bin_pass_order (l1 : List Row)
    (h1 : ∀ x ∈ l1, bounded_cols_ok x ∧ bin01 x.handling_equipment_availability ∧
      unit01 x.order_fulfillment_status ∧ unit01 x.cargo_condition_status) :
    ∀ r ∈ bin_column (fun r => r.order_fulfillment_status)
      (fun r v => { r with order_fulfillment_status := v }) l1,
      bounded_cols_ok r ∧ bin01 r.handling_equipment_availability ∧
        bin01 r.order_fulfillment_status ∧ unit01 r.cargo_condition_status := by
  intro r hr
  rcases bin_column_mem l1 r hr with ⟨r0, hr0, rfl⟩ | ⟨hrm, hall⟩
  · obtain ⟨hb, hh, _, hc⟩ := h1 r0 hr0
    exact ⟨hb, hh, fun q hq => round_clip_cell_binary _ q hq, hc⟩
  · obtain ⟨hb, hh, _, hc⟩ := h1 r hrm
    exact ⟨hb, hh, non_binaryB_false _ (hall r hrm), hc⟩

/-- Third binary pass: the cargo_condition_status column becomes a 0/1 flag
while the earlier facts are untouched. -/
theorem bin_pass_cargo (l2 : List Row)
    (h2 : ∀ x ∈ l2, bounded_cols_ok x ∧ bin01 x.handling_equipment_availability ∧
      bin01 x.order_fulfillment_status ∧ unit01 x.cargo_condition_status) :
    ∀ r ∈ bin_column (fun r => r.cargo_condition_status)
      (fun r v => { r with cargo_condition_status := v }) l2,
      in_declared_domains r := by
  intro r hr
  rcases bin_column_mem l2 r hr with ⟨r0, hr0, rfl⟩ | ⟨hrm, hall⟩
  · obtain ⟨hb, hh, ho, _⟩ := h2 r0 hr0
    exact ⟨hb, hh, ho, fun q hq => round_clip_cell_binary _ q hq⟩
  · obtain ⟨hb, hh, ho, _⟩ := h2 r hrm
    exact ⟨hb, hh, ho, non_binaryB_false _ (hall r hrm)⟩

/-- C1: after range validation and binary-field validation every record has
each bounded metric inside its declared domain: congestion and risk levels
in [0,10], the score and probability columns in [0,1], the binary flags in
the two-point set, latitude in [-90,90] and longitude in [-180,180]. -/
theorem c1_validated_record_domains (rows : List Row) (r : Row)
    (hr : r ∈ validate_binary_fields (validate_ranges rows).1) :
    in_declared_domains r := by
  have h0 : ∀ x ∈ (validate_ranges rows).1, ranged_ok x := by
    intro x hx
    obtain ⟨y, _, rfl⟩ := List.mem_map.mp hx
    exact clamp_row_ranged_ok y
  unfold validate_binary_fields at hr
  exact bin_pass_cargo _ (bin_pass_order _ (bin_pass_handling _ h0)) r hr

/-- Raw row with out-of-range values in several validated columns. -/
def c1_raw : RawRow where
  timestamp := RawTs.time ⟨2022, 5, 3, 10, 0⟩
  vehicle_gps_latitude := RawCell.num 100
  vehicle_gps_longitude := RawCell.num (-200)
  fuel_consumption_rate := RawCell.num (-2)
  eta_variation_hours := RawCell.num 1
  traffic_congestion_level := RawCell.num 15
  warehouse_inventory_level := RawCell.num 100
  loading_unloading_time := RawCell.num 2
  weather_condition_severity := RawCell.num 3
  port_congestion_level := RawCell.num 11
  shipping_costs := RawCell.num 500
  supplier_reliability_score := RawCell.num (-2)
  lead_time_days := RawCell.num 4
  historical_demand := RawCell.num 1000
  iot_temperature := RawCell.num 20
  route_risk_level := RawCell.num 12
  customs_clearance_time := RawCell.num 3
  driver_behavior_score := RawCell.num 2
  fatigue_monitoring_score := RawCell.num 2
  disruption_likelihood_score := RawCell.num 2
  delay_probability := RawCell.num 2
  delivery_time_deviation := RawCell.num 0
  handling_equipment_availability := RawCell.num 1
  order_fulfillment_status := RawCell.num 1
  cargo_condition_status := RawCell.num 0
  risk_classification := RawCat.cat 2

/-- Typed dataset holding the out-of-range row. -/
def c1_rows : List Row := analyze_data_types [c1_raw]

/-- The record emitted for the out-of-range row by the two validation
stages. -/
def c1_out_row : Row :=
  (validate_binary_fields (validate_ranges c1_rows).1).headD (analyze_row c1_raw)

/-- Witness of C1 at a concrete record that needed clamping in an interval
column, a geocoordinate column and a binary column. -/
theorem c1_validated_record_domains_witness : in_declared_domains c1_out_row :=
  c1_validated_record_domains c1_rows c1_out_row (by decide)
